import Mathlib

/-!
Verification development for the OmniNode hierarchical grid-control runtime.

The Python sources are shallowly embedded: numeric readings (per-unit
voltages, line loading percentages, the system frequency) become rationals,
pandas keyed series become association lists, and external effects (the
numerical power-flow solver, the guardian policy oracle, the JSON decoder)
become explicit function parameters.  Every definition is translated from
the corresponding function in the repository; definitions that follow the
wording of the specification instead are clearly marked as such.
-/

/-! ## Simulation facade: observable state and violation detection
    (src/src/simulation/power_grid.py) -/

/-- Executable absolute value on the rationals, mirroring the Python builtin
`abs`; kept as a plain conditional so that concrete states evaluate by
`decide` and `rfl`. -/
def ratAbs (q : ℚ) : ℚ := if q < 0 then -q else q

/-- `ratAbs` agrees with the lattice absolute value. -/
theorem ratAbs_eq_abs (q : ℚ) : ratAbs q = |q| := by
  unfold ratAbs
  rcases lt_or_ge q 0 with h | h
  · rw [if_pos h, abs_of_neg h]
  · rw [if_neg (not_lt.mpr h), abs_of_nonneg h]

/-- Executable binary minimum on the rationals. -/
def ratMin (a b : ℚ) : ℚ := if a ≤ b then a else b

/-- Observable electrical state of the simulation facade: per-bus voltage
magnitudes in per-unit, per-line loading percentages, and the simulated
system frequency in Hz.  Mirrors the readings used by
`PowerGridSimulation._check_violations`. -/
structure ObsState where
  busVoltages : List (Nat × ℚ)
  lineLoadings : List (Nat × ℚ)
  frequency : ℚ
deriving Repr, DecidableEq

/-- One violation record as produced by
`PowerGridSimulation._check_violations`: a kind tag, the affected component
identifier, the measured value and a severity tag. -/
structure Violation where
  vtype : String
  component : String
  value : ℚ
  severity : String
deriving Repr, DecidableEq

/-- Voltage violation entries of `_check_violations`: a bus violates when its
voltage magnitude leaves the 0.95 to 1.05 p.u. window; severity is critical
outside 0.90 to 1.10 p.u. -/
def voltageViolations (bv : List (Nat × ℚ)) : List Violation :=
  bv.filterMap (fun p =>
    if p.2 < (95/100 : ℚ) ∨ p.2 > (105/100 : ℚ) then
      some { vtype := "voltage"
             component := "bus_" ++ toString p.1
             value := p.2
             severity :=
               if p.2 < (9/10 : ℚ) ∨ p.2 > (11/10 : ℚ) then "critical" else "warning" }
    else none)

/-- Thermal violation entries of `_check_violations`: a line violates when its
loading exceeds 100 percent; severity is critical above 120 percent. -/
def thermalViolations (ll : List (Nat × ℚ)) : List Violation :=
  ll.filterMap (fun p =>
    if p.2 > (100 : ℚ) then
      some { vtype := "thermal"
             component := "line_" ++ toString p.1
             value := p.2
             severity := if p.2 > (120 : ℚ) then "critical" else "warning" }
    else none)

/-- Frequency violation entry of `_check_violations`: the system component
violates when the frequency deviates from 60 Hz by more than 0.5 Hz;
severity is critical beyond 1.0 Hz. -/
def frequencyViolations (freq : ℚ) : List Violation :=
  if ratAbs (freq - 60) > 1/2 then
    [{ vtype := "frequency"
       component := "system"
       value := freq
       severity := if ratAbs (freq - 60) > 1 then "critical" else "warning" }]
  else []

/-- `PowerGridSimulation._check_violations`: voltage checks over every bus,
then thermal checks over every line, then the frequency check. -/
def checkViolations (s : ObsState) : List Violation :=
  voltageViolations s.busVoltages ++ thermalViolations s.lineLoadings
    ++ frequencyViolations s.frequency

/-- The Python dict comprehension keyed by component keeps the LAST entry for
each key; `lastLookup` reproduces that when reading the pre-violation map in
`validate_action`. -/
def lastLookup (vs : List Violation) (c : String) : Option Violation :=
  (vs.filter (fun v => v.component = c)).getLast?

/-- Decision core of `PowerGridSimulation.validate_action`: post-violations on
components that were not violating before are blocking, and so are
post-violations whose distance of the measured value from 1.0 grew by more
than 0.05 over the pre-violation on the same component. -/
def validateDecision (pre post : ObsState) : Bool × List Violation :=
  let preViolations := checkViolations pre
  let preComponents := preViolations.map (fun v => v.component)
  let postViolations := checkViolations post
  let newViolations := postViolations.filter
    (fun v => ¬ preComponents.contains v.component)
  let worsened := postViolations.filter (fun v =>
    match lastLookup preViolations v.component with
    | some old => ratAbs (v.value - 1) > ratAbs (old.value - 1) + 1/20
    | none => false)
  let blocking := newViolations ++ worsened
  (blocking.isEmpty, blocking)

/-! ## Snapshot stack and sandboxed validation -/

/-- Simulation state carrying the observable grid state together with the
snapshot stack maintained by `save_snapshot` and `restore_snapshot`. -/
structure SimState where
  cur : ObsState
  snapshots : List ObsState
deriving Repr, DecidableEq

/-- `PowerGridSimulation.save_snapshot`: push a full copy of the current
state and return its index on the stack. -/
def saveSnapshot (s : SimState) : Nat × SimState :=
  (s.snapshots.length, { s with snapshots := s.snapshots ++ [s.cur] })

/-- `PowerGridSimulation.restore_snapshot`: if the index is on the stack,
replace the current state by the stored copy and report success. -/
def restoreSnapshot (i : Nat) (s : SimState) : Bool × SimState :=
  if h : i < s.snapshots.length then
    (true, { s with cur := s.snapshots.get ⟨i, h⟩ })
  else (false, s)

/-- An action on the grid: a state transformer that may raise (`none` models
a Python exception escaping `action_fn`). -/
def GridAction : Type := ObsState → Option ObsState

/-- `PowerGridSimulation.validate_action`: push a snapshot, compute the
pre-violations, run the action, compute the decision on the post state, and
restore the snapshot in the `finally` block.  Returns `none` for the result
when the action raised (the exception propagates after the restore). -/
def validateAction (f : GridAction) (s : SimState) :
    Option (Bool × List Violation) × SimState :=
  let idxAndState := saveSnapshot s
  let idx := idxAndState.1
  let s1 := idxAndState.2
  match f s1.cur with
  | none => (none, (restoreSnapshot idx s1).2)
  | some post =>
      (some (validateDecision s1.cur post),
        (restoreSnapshot idx { s1 with cur := post }).2)

theorem getLast_append_singleton {α : Type} (l : List α) (x : α)
    (h : l.length < (l ++ [x]).length) : (l ++ [x]).get ⟨l.length, h⟩ = x := by
  induction l with
  | nil => rfl
  | cons a t ih => exact ih (by simp)

/-- C5 — Snapshot round-trip: for every pre-state and every action, including
an action that raises, the observable grid state after `validate_action` is
exactly the pre-state (hence within any tolerance): the snapshot pushed at
step (b) is restored unconditionally by the `finally` block. -/
theorem validateAction_restores (f : GridAction) (s : SimState) :
    (validateAction f s).2.cur = s.cur := by
  unfold validateAction saveSnapshot restoreSnapshot
  cases hf : f s.cur with
  | none =>
      simp only [hf]
      rw [dif_pos (by simp)]
      exact getLast_append_singleton s.snapshots s.cur (by simp)
  | some post =>
      simp only [hf]
      rw [dif_pos (by simp)]
      exact getLast_append_singleton s.snapshots s.cur (by simp)

/-! ## C1 — the validation decision versus the specified decision -/

/-- Component name of a violation (helper for stating membership). -/
def vcomp (v : Violation) : String := v.component

/-- Deviation of a violating measurement from its nearest limit, following
the wording of the specification: distance to the nearer of the two voltage
limits for voltage, excess over 100 percent for thermal, excess of the
frequency deviation over 0.5 Hz for frequency. -/
def specDeviation (v : Violation) : ℚ :=
  if v.vtype = "voltage" then
    ratMin (ratAbs (v.value - 95/100)) (ratAbs (v.value - 105/100))
  else if v.vtype = "thermal" then v.value - 100
  else ratAbs (v.value - 60) - 1/2

/-- Decision predicate following the wording of the specification (for
comparison against `validateDecision`): safe iff no post-violation sits on a
component that was not already violating, and no pre-existing violation has
its deviation from the nearest limit grow by more than 5 percent. -/
def specSafe (pre post : ObsState) : Bool :=
  let preV := checkViolations pre
  let postV := checkViolations post
  postV.all (fun v => (preV.map vcomp).contains v.component) &&
  postV.all (fun v => preV.all (fun u =>
    if u.component = v.component
    then decide (specDeviation v ≤ specDeviation u * (21/20))
    else true))

/-- Pre-state for the C1 counterexample: one line loaded to 105 percent,
voltages and frequency nominal. -/
def preC1 : ObsState :=
  { busVoltages := [(0, 1)], lineLoadings := [(0, 105)], frequency := 60 }

/-- Post-state for the C1 counterexample: the same line now loaded to
105.06 percent. -/
def postC1 : ObsState :=
  { busVoltages := [(0, 1)], lineLoadings := [(0, 10506/100)], frequency := 60 }

/-- C1 counterexample: moving the already-overloaded line from 105 to
105.06 percent loading grows its deviation from the 100 percent limit from
5 to 5.06 points, far below a 5 percent growth, so the specified decision is
safe; the code compares distances of the raw value from 1.0 against an
absolute 0.05 slack and reports unsafe.  The claimed equivalence fails. -/
theorem validateDecision_ne_specSafe :
    (validateDecision preC1 postC1).1 = false ∧ specSafe preC1 postC1 = true := by
  constructor
  · norm_num [validateDecision, checkViolations, voltageViolations, thermalViolations,
      frequencyViolations, lastLookup, ratAbs, preC1, postC1,
      List.filterMap_cons, List.filter_cons, List.contains_cons]
  · norm_num [specSafe, checkViolations, voltageViolations, thermalViolations,
      frequencyViolations, specDeviation, ratMin, ratAbs, vcomp, preC1, postC1,
      List.filterMap_cons, List.all_cons, List.contains_cons]
    rw [if_neg (by decide : ¬ ("thermal" = "voltage")),
        if_neg (by decide : ¬ ("thermal" = "voltage"))]
    norm_num

/-- Membership characterisation for `lastLookup`: a hit is an element of the
list with the requested component. -/
theorem lastLookup_mem {vs : List Violation} {c : String} {u : Violation}
    (h : lastLookup vs c = some u) : u ∈ vs ∧ u.component = c := by
  unfold lastLookup at h
  have hm : u ∈ vs.filter (fun v => v.component = c) := by
    rcases List.mem_getLast?_eq_getLast h with ⟨hne, rfl⟩
    exact List.getLast_mem hne
  rcases List.mem_filter.mp hm with ⟨h1, h2⟩
  exact ⟨h1, by simpa using h2⟩

/-- With componentwise-distinct pre-violations, `lastLookup` finds exactly
the unique pre-violation on a given component. -/
theorem lastLookup_eq_of_nodup {vs : List Violation}
    (h : (vs.map vcomp).Nodup) {u : Violation} (hu : u ∈ vs) :
    lastLookup vs u.component = some u := by
  induction vs with
  | nil => cases hu
  | cons a t ih =>
      rcases List.mem_cons.mp hu with rfl | hmem
      · have hnot : ∀ w ∈ t, ¬ (w.component = u.component) := by
          intro w hw hC
          have : u.component ∈ t.map vcomp := by
            exact List.mem_map.mpr ⟨w, hw, hC⟩
          exact (List.nodup_cons.mp h).1 this
        unfold lastLookup
        rw [List.filter_cons_of_pos (by simp)]
        have : t.filter (fun v => v.component = u.component) = [] := by
          simp only [List.filter_eq_nil_iff]
          intro w hw
          simpa using hnot w hw
        rw [this]
        rfl
      · have hne : ¬ (a.component = u.component) := by
          intro hC
          have : a.component ∈ t.map vcomp := hC ▸ List.mem_map.mpr ⟨u, hmem, rfl⟩
          exact (List.nodup_cons.mp h).1 this
        unfold lastLookup
        rw [List.filter_cons_of_neg (by simpa using hne)]
        exact ih (List.nodup_cons.mp h).2 hmem

/-- C1 amended: with one pre-violation per component, `validate_action`
reports safe exactly when every post-violation sits on a component that was
already violating and no pre-existing violation has the distance of its raw
measured value from 1.0 grow by more than an absolute 0.05 (for voltage this
coincides with the deviation from the nearest limit growing by more than
0.05 p.u.; for thermal it means the loading growing by more than 0.05
percentage points). -/
theorem validateDecision_safe_iff (pre post : ObsState)
    (h : ((checkViolations pre).map vcomp).Nodup) :
    (validateDecision pre post).1 = true ↔
      ((∀ v ∈ checkViolations post,
          v.component ∈ (checkViolations pre).map vcomp) ∧
       (∀ v ∈ checkViolations post, ∀ u ∈ checkViolations pre,
          u.component = v.component → |v.value - 1| ≤ |u.value - 1| + 1/20)) := by
  unfold validateDecision
  simp only [List.isEmpty_iff, List.append_eq_nil, List.filter_eq_nil_iff]
  constructor
  · rintro ⟨hnew, hwor⟩
    constructor
    · intro v hv
      have := hnew v hv
      simpa [vcomp, List.contains_iff_exists_mem_beq] using this
    · intro v hv u hu hc
      have hl : lastLookup (checkViolations pre) v.component = some u := by
        rw [← hc]
        exact lastLookup_eq_of_nodup h hu
      have hw := hwor v hv
      rw [hl] at hw
      simp only [decide_eq_true_eq, not_lt, ratAbs_eq_abs] at hw
      linarith
  · rintro ⟨hmem, hbound⟩
    constructor
    · intro v hv
      have := hmem v hv
      simpa [vcomp, List.contains_iff_exists_mem_beq] using this
    · intro v hv
      cases hl : lastLookup (checkViolations pre) v.component with
      | none => simp [hl]
      | some old =>
          rcases lastLookup_mem hl with ⟨hold, hcomp⟩
          have hb := hbound v hv old hold hcomp
          simp only [hl, decide_eq_true_eq, not_lt, ratAbs_eq_abs]
          linarith

/-- C1 witness: the amended equivalence applied at the concrete
counterexample pre and post states, with the componentwise-distinctness
hypothesis discharged there. -/
theorem validateDecision_safe_iff_witness :
    ((checkViolations preC1).map vcomp).Nodup ∧
    ((validateDecision preC1 postC1).1 = true ↔
      ((∀ v ∈ checkViolations postC1,
          v.component ∈ (checkViolations preC1).map vcomp) ∧
       (∀ v ∈ checkViolations postC1, ∀ u ∈ checkViolations preC1,
          u.component = v.component → |v.value - 1| ≤ |u.value - 1| + 1/20))) := by
  have h : ((checkViolations preC1).map vcomp).Nodup := by
    norm_num [checkViolations, voltageViolations, thermalViolations, frequencyViolations,
      preC1, List.filterMap_cons, ratAbs]
  exact ⟨h, validateDecision_safe_iff preC1 postC1 h⟩

/-! ## C2 — facade mutations and the power-flow rerun
    (src/src/simulation/power_grid.py, mutation group) -/

/-- Input side of the pandapower network touched by the facade mutations:
per-line service flags, generator active and reactive setpoints, load active
and reactive powers, shunt service flags, plus the solver convergence flag
stored on the network by the last run. -/
structure NetInput where
  lineInService : List Bool
  genP : List ℚ
  genQ : List ℚ
  loadP : List ℚ
  loadQ : List ℚ
  shuntInService : List Bool
  converged : Bool
deriving Repr, DecidableEq

/-- The external numerical solver, abstracted as a convergence judgement on
the network input data (`pp.runpp` together with the exception guard of
`run_power_flow`, which maps a solver exception to a False return). -/
def Solver : Type := NetInput → Bool

/-- `PowerGridSimulation.run_power_flow`: run the solver, record the
convergence flag on the network, and return it.  No state beyond the flag is
touched on failure; in particular nothing is reverted. -/
def runPowerFlow (solver : Solver) (n : NetInput) : Bool × NetInput :=
  let c := solver n
  (c, { n with converged := c })

/-- Result record of `set_line_status`: the previous and the new service
flag.  The record carries no convergence information. -/
structure LineStatusResult where
  lineId : Nat
  previous : Bool
  current : Bool
deriving Repr, DecidableEq

/-- `PowerGridSimulation.set_line_status`: write the service flag, rerun the
power flow (discarding its return value), and report previous/current. -/
def setLineStatus (solver : Solver) (n : NetInput) (lineId : Nat)
    (inService : Bool) : LineStatusResult × NetInput :=
  let prev := n.lineInService.getD lineId true
  let n1 := { n with lineInService := n.lineInService.set lineId inService }
  let n2 := (runPowerFlow solver n1).2
  ({ lineId := lineId, previous := prev, current := inService }, n2)

/-- Result record of `set_generator_output`. -/
structure GenOutputResult where
  genId : Nat
  previousPMw : ℚ
  currentPMw : ℚ
deriving Repr, DecidableEq

/-- `PowerGridSimulation.set_generator_output`: write the active (and
optionally reactive) setpoint, rerun the power flow (return value
discarded), report previous/current active power. -/
def setGeneratorOutput (solver : Solver) (n : NetInput) (genId : Nat)
    (pMw : ℚ) (qMvar : Option ℚ) : GenOutputResult × NetInput :=
  let prevP := n.genP.getD genId 0
  let n1 := { n with
    genP := n.genP.set genId pMw
    genQ := match qMvar with
            | some q => n.genQ.set genId q
            | none => n.genQ }
  let n2 := (runPowerFlow solver n1).2
  ({ genId := genId, previousPMw := prevP, currentPMw := pMw }, n2)

/-- Result record of `scale_load`. -/
structure ScaleLoadResult where
  loadId : Nat
  previousPMw : ℚ
  currentPMw : ℚ
  scaleFactor : ℚ
deriving Repr, DecidableEq

/-- `PowerGridSimulation.scale_load`: multiply the active and reactive load
by the factor, rerun the power flow (return value discarded), report. -/
def scaleLoad (solver : Solver) (n : NetInput) (loadId : Nat)
    (factor : ℚ) : ScaleLoadResult × NetInput :=
  let prevP := n.loadP.getD loadId 0
  let n1 := { n with
    loadP := n.loadP.set loadId (prevP * factor)
    loadQ := n.loadQ.set loadId (n.loadQ.getD loadId 0 * factor) }
  let n2 := (runPowerFlow solver n1).2
  ({ loadId := loadId, previousPMw := prevP, currentPMw := prevP * factor,
     scaleFactor := factor }, n2)

/-- Result record of `set_shunt_status`. -/
structure ShuntStatusResult where
  shuntId : Nat
  previous : Bool
  current : Bool
deriving Repr, DecidableEq

/-- `PowerGridSimulation.set_shunt_status`: write the shunt service flag,
rerun the power flow (return value discarded), report previous/current. -/
def setShuntStatus (solver : Solver) (n : NetInput) (shuntId : Nat)
    (inService : Bool) : ShuntStatusResult × NetInput :=
  let prev := n.shuntInService.getD shuntId true
  let n1 := { n with shuntInService := n.shuntInService.set shuntId inService }
  let n2 := (runPowerFlow solver n1).2
  ({ shuntId := shuntId, previous := prev, current := inService }, n2)

/-- The solver that never converges, and a one-line network in nominal
state, for the C2 counterexample. -/
def divergingSolver : Solver := fun _ => false

/-- Concrete pre-mutation network for the C2 counterexample. -/
def netC2 : NetInput :=
  { lineInService := [true], genP := [40], genQ := [0], loadP := [20],
    loadQ := [5], shuntInService := [true], converged := true }

/-- C2 counterexample: when the power flow fails to converge after opening
line 0, the mutation is not reverted (the service flag keeps its new value)
and the caller-visible network is left non-converged; the result record
carries no convergence report at all.  The claimed revert-and-report
behaviour does not exist in the mutation paths. -/
theorem setLineStatus_no_revert :
    (setLineStatus divergingSolver netC2 0 false).2.lineInService
        ≠ netC2.lineInService ∧
    (setLineStatus divergingSolver netC2 0 false).2.converged = false ∧
    (setLineStatus divergingSolver netC2 0 false).1
        = { lineId := 0, previous := true, current := false } := by
  refine ⟨?_, rfl, rfl⟩
  simp [setLineStatus, runPowerFlow, netC2, divergingSolver]

/-- C2 amended: every facade mutation applies its write unconditionally and
keeps it regardless of the solver outcome; the rerun only records the
convergence flag, and the returned record reports previous/current values
with no convergence information.  Nothing is reverted when the solver fails
to converge. -/
theorem mutations_keep_mutation_on_divergence (solver : Solver) (n : NetInput)
    (i : Nat) (b : Bool) (p q factor : ℚ) :
    (setLineStatus solver n i b).2.lineInService = n.lineInService.set i b ∧
    (setGeneratorOutput solver n i p (some q)).2.genP = n.genP.set i p ∧
    (scaleLoad solver n i factor).2.loadP
        = n.loadP.set i (n.loadP.getD i 0 * factor) ∧
    (setShuntStatus solver n i b).2.shuntInService = n.shuntInService.set i b ∧
    (setLineStatus solver n i b).2.converged
        = solver { n with lineInService := n.lineInService.set i b } := by
  refine ⟨rfl, rfl, rfl, rfl, rfl⟩

/-! ## C7 — registry store staleness (src/src/registry/store.py) -/

/-- Endpoint status as kept by the registry store. -/
inductive SrvStatus where
  | active
  | stale
  | offline
deriving Repr, DecidableEq

/-- One tool descriptor of a registration (name and description; the other
descriptor fields are irrelevant to staleness). -/
structure RegTool where
  name : String
  description : String
deriving Repr, DecidableEq

/-- One `MCPServerRegistration` as stored by `RegistryStore`: identifier,
display name, tier, domain, optional zone, status, last-heartbeat instant
(seconds on an absolute clock) and the declared tools. -/
structure Registration where
  serverId : String
  name : String
  layer : String
  domain : String
  zone : Option String
  status : SrvStatus
  lastHeartbeat : ℚ
  tools : List RegTool
deriving Repr, DecidableEq

/-- `RegistryStore.cleanup_stale`: mark every ACTIVE server whose heartbeat
age strictly exceeds the 60-second threshold as STALE; return the store
and the number of servers marked. -/
def cleanupStale (now : ℚ) (servers : List Registration) :
    List Registration × Nat :=
  (servers.map (fun s =>
      if s.status = SrvStatus.active ∧ now - s.lastHeartbeat > 60
      then { s with status := SrvStatus.stale } else s),
   (servers.filter (fun s =>
      s.status = SrvStatus.active ∧ now - s.lastHeartbeat > 60)).length)

/-- `RegistryStore.get_server`: dictionary lookup by server id (the store is
keyed by id, so ids are unique). -/
def getServer (sid : String) (servers : List Registration) :
    Option Registration :=
  servers.find? (fun s => s.serverId = sid)

/-- `RegistryStore.list_servers`: sequential optional filters on tier,
domain, zone and status. -/
def listServers (layer domain zone : Option String)
    (status : Option SrvStatus) (servers : List Registration) :
    List Registration :=
  let r1 := match layer with
            | some l => servers.filter (fun s => s.layer = l)
            | none => servers
  let r2 := match domain with
            | some d => r1.filter (fun s => s.domain = d)
            | none => r1
  let r3 := match zone with
            | some z => r2.filter (fun s => s.zone = some z)
            | none => r2
  match status with
  | some st => r3.filter (fun s => s.status = st)
  | none => r3

/-- Flattened tool entry produced by `RegistryStore.list_all_tools`. -/
structure FlatTool where
  serverId : String
  serverName : String
  layer : String
  zone : Option String
  toolName : String
deriving Repr, DecidableEq

/-- `RegistryStore.list_all_tools`: flatten the tools of the ACTIVE servers
(optionally restricted to a domain) with their originating server data. -/
def listAllTools (domain : Option String) (servers : List Registration) :
    List FlatTool :=
  (listServers none domain none (some SrvStatus.active) servers).flatMap
    (fun s => s.tools.map (fun t =>
      { serverId := s.serverId, serverName := s.name, layer := s.layer,
        zone := s.zone, toolName := t.name }))

/-- A registration whose heartbeat is exactly 60 seconds old at sweep time,
for the C7 counterexample. -/
def regC7 : Registration :=
  { serverId := "sensor_voltage_zone1_ab12", name := "Voltage Sensor (zone1)",
    layer := "physical", domain := "power_grid", zone := some "zone1",
    status := SrvStatus.active, lastHeartbeat := 0,
    tools := [{ name := "read_sensor", description := "Read a sensor" }] }

/-- C7 counterexample: an endpoint whose last heartbeat is exactly 60
seconds old is NOT marked stale by the sweep; the code marks stale only when
the age strictly exceeds 60 seconds, while the claim demands it at an age of
at least 60 seconds. -/
theorem cleanupStale_boundary :
    (cleanupStale 60 [regC7]).1 = [regC7] ∧ regC7.status = SrvStatus.active := by
  constructor
  · norm_num [cleanupStale, regC7]
  · rfl

/-- Elementwise description of the sweep: each stored registration is either
kept or marked stale according to the strict age test. -/
theorem cleanupStale_mem {now : ℚ} {servers : List Registration}
    {s : Registration} (hs : s ∈ servers) :
    (if s.status = SrvStatus.active ∧ now - s.lastHeartbeat > 60
     then { s with status := SrvStatus.stale } else s)
      ∈ (cleanupStale now servers).1 := by
  unfold cleanupStale
  exact List.mem_map.mpr ⟨s, hs, rfl⟩

theorem find?_map_of_unique {servers : List Registration}
    (f : Registration → Registration)
    (hf : ∀ s, (f s).serverId = s.serverId) {s : Registration}
    (hs : s ∈ servers)
    (hu : (servers.map Registration.serverId).Nodup) :
    (servers.map f).find? (fun t => t.serverId = s.serverId)
      = some (f s) := by
  induction servers with
  | nil => cases hs
  | cons a t ih =>
      rcases List.mem_cons.mp hs with rfl | hmem
      · simp [List.find?_cons, hf]
      · have hne : a.serverId ≠ s.serverId := by
          intro hC
          exact (List.nodup_cons.mp hu).1
            (hC ▸ List.mem_map.mpr ⟨s, hmem, rfl⟩)
        have hfa : (decide ((f a).serverId = s.serverId)) = false := by
          simp [hf, hne]
        simp only [List.map_cons, List.find?_cons, hfa]
        exact ih hmem (List.nodup_cons.mp hu).2

/-- C7 amended: after a sweep at time `now`, an active endpoint whose
heartbeat age STRICTLY exceeds 60 seconds is stale; it is still returned by
the id lookup and by the unfiltered list query, and none of its tools
appears in the flattened tool list used for dispatch. -/
theorem cleanupStale_marks_and_queries (now : ℚ) (servers : List Registration)
    (s : Registration) (hs : s ∈ servers)
    (hactive : s.status = SrvStatus.active)
    (hage : now - s.lastHeartbeat > 60)
    (hu : (servers.map Registration.serverId).Nodup) :
    getServer s.serverId (cleanupStale now servers).1
        = some { s with status := SrvStatus.stale } ∧
    { s with status := SrvStatus.stale }
        ∈ listServers none none none none (cleanupStale now servers).1 ∧
    ∀ ft ∈ listAllTools none (cleanupStale now servers).1,
        ft.serverId ≠ s.serverId := by
  have hcond : (s.status = SrvStatus.active ∧ now - s.lastHeartbeat > 60) :=
    ⟨hactive, hage⟩
  refine ⟨?_, ?_, ?_⟩
  · unfold getServer cleanupStale
    have := find?_map_of_unique
      (fun r => if r.status = SrvStatus.active ∧ now - r.lastHeartbeat > 60
                then { r with status := SrvStatus.stale } else r)
      (by intro r; by_cases h : r.status = SrvStatus.active ∧ now - r.lastHeartbeat > 60
          <;> simp [h]) hs hu
    rw [this]
    simp [hcond]
  · unfold listServers cleanupStale
    have := @cleanupStale_mem now servers s hs
    rw [if_pos hcond] at this
    simpa [cleanupStale] using this
  · intro ft hft hC
    unfold listAllTools listServers at hft
    rcases List.mem_flatMap.mp hft with ⟨srv, hsrv, htool⟩
    rcases List.mem_filter.mp hsrv with ⟨hsrv1, hsrv2⟩
    rcases List.mem_map.mp (by simpa [cleanupStale] using hsrv1)
      with ⟨orig, horig, heq⟩
    have hftsid : ft.serverId = srv.serverId := by
      rcases List.mem_map.mp htool with ⟨t, _, rfl⟩
      rfl
    have hsid : srv.serverId = orig.serverId := by
      subst heq
      by_cases h : orig.status = SrvStatus.active ∧ now - orig.lastHeartbeat > 60
        <;> simp [h]
    have horigs : orig = s := by
      have hids : orig.serverId = s.serverId := by
        rw [← hsid, ← hftsid, hC]
      exact List.inj_on_of_nodup_map hu horig hs hids
    subst horigs
    subst heq
    rw [if_pos hcond] at hsrv2
    simp at hsrv2

/-- C7 witness: the amended sweep behaviour applied to a one-server store
whose heartbeat is 61 seconds old at sweep time. -/
theorem cleanupStale_marks_and_queries_witness :
    getServer regC7.serverId (cleanupStale 61 [regC7]).1
        = some { regC7 with status := SrvStatus.stale } ∧
    { regC7 with status := SrvStatus.stale }
        ∈ listServers none none none none (cleanupStale 61 [regC7]).1 ∧
    ∀ ft ∈ listAllTools none (cleanupStale 61 [regC7]).1,
        ft.serverId ≠ regC7.serverId := by
  have h := cleanupStale_marks_and_queries 61 [regC7] regC7 (by simp) rfl
    (by norm_num [regC7]) (by simp)
  exact h

/-! ## C9 — event bus publish (src/backend/src/api/event_bus.py) -/

/-- A bus message: either a JSON-like dict (insertion-ordered key/value
pairs) or a plain string. -/
inductive Message where
  | mdict (fields : List (String × String))
  | mstr (text : String)
deriving Repr, DecidableEq

/-- Queue bound installed by `EventBus.subscribe` (`asyncio.Queue(maxsize=100)`). -/
def queueCapacity : Nat := 100

/-- Timestamp auto-attach of `EventBus.publish`: a dict message lacking a
timestamp field gets one appended (Python dict assignment appends the new
key in insertion order); string messages pass through unchanged. -/
def attachTimestamp (now : String) (m : Message) : Message :=
  match m with
  | Message.mdict kvs =>
      if (kvs.map Prod.fst).contains "timestamp" then Message.mdict kvs
      else Message.mdict (kvs ++ [("timestamp", now)])
  | Message.mstr s => Message.mstr s

/-- `EventBus.publish` on one channel: enrich the message, then for each
subscriber queue independently either enqueue (`put_nowait` succeeds while
the queue is below capacity) or drop the message for that subscriber with a
warning (`QueueFull` is caught per queue); the publisher never waits.
Returns the new queues and the number of warnings emitted. -/
def publish (now : String) (queues : List (List Message)) (m : Message) :
    List (List Message) × Nat :=
  let enriched := attachTimestamp now m
  (queues.map (fun q =>
      if q.length < queueCapacity then q ++ [enriched] else q),
   (queues.filter (fun q => ¬ q.length < queueCapacity)).length)

/-- Publishing does not change the set of subscriber queues. -/
theorem publish_length (now : String) (queues : List (List Message))
    (m : Message) : (publish now queues m).1.length = queues.length := by
  simp [publish]

/-- C9 — drop-on-full pub/sub: each subscriber queue with free space
receives the (timestamp-enriched) message appended; each full queue is left
unchanged, with exactly one warning counted per full queue and every other
queue unaffected; a dict message lacking a timestamp field has one attached
before any delivery.  The publisher is a total function of the queues and
never waits on a subscriber. -/
theorem publish_spec (now : String) (queues : List (List Message))
    (m : Message) (i : Nat) (h : i < queues.length) :
    ((publish now queues m).1.get
        ⟨i, by rw [publish_length]; exact h⟩ =
      (if (queues.get ⟨i, h⟩).length < queueCapacity
       then queues.get ⟨i, h⟩ ++ [attachTimestamp now m]
       else queues.get ⟨i, h⟩)) ∧
    (publish now queues m).2 =
      (queues.filter (fun q => ¬ q.length < queueCapacity)).length ∧
    (∀ kvs, (kvs.map Prod.fst).contains "timestamp" = false →
      attachTimestamp now (Message.mdict kvs)
        = Message.mdict (kvs ++ [("timestamp", now)])) := by
  refine ⟨?_, rfl, ?_⟩
  · simp [publish]
  · intro kvs hk
    simp only [attachTimestamp]
    rw [if_neg (by rw [hk]; exact Bool.false_ne_true)]

/-- C9 witness: the pointwise delivery description applied to a concrete
bus with one empty queue, one full queue and one partially filled queue. -/
theorem publish_spec_witness :
    (0 < ([([] : List Message), List.replicate 100 (Message.mstr "x"),
          [Message.mstr "y"]]).length) ∧
    (((publish "t0" [([] : List Message),
          List.replicate 100 (Message.mstr "x"), [Message.mstr "y"]]
          (Message.mdict [("level", "info")])).1.get ⟨0, by norm_num [publish]⟩ =
      (if (([([] : List Message), List.replicate 100 (Message.mstr "x"),
            [Message.mstr "y"]]).get ⟨0, by norm_num⟩).length < queueCapacity
       then ([([] : List Message), List.replicate 100 (Message.mstr "x"),
            [Message.mstr "y"]]).get ⟨0, by norm_num⟩
            ++ [attachTimestamp "t0" (Message.mdict [("level", "info")])]
       else ([([] : List Message), List.replicate 100 (Message.mstr "x"),
            [Message.mstr "y"]]).get ⟨0, by norm_num⟩)) ∧
      (publish "t0" [([] : List Message),
          List.replicate 100 (Message.mstr "x"), [Message.mstr "y"]]
          (Message.mdict [("level", "info")])).2 =
        (([([] : List Message), List.replicate 100 (Message.mstr "x"),
          [Message.mstr "y"]]).filter
            (fun q => ¬ q.length < queueCapacity)).length ∧
      (∀ kvs, (kvs.map Prod.fst).contains "timestamp" = false →
        attachTimestamp "t0" (Message.mdict kvs)
          = Message.mdict (kvs ++ [("timestamp", "t0")]))) := by
  refine ⟨by norm_num, ?_⟩
  exact publish_spec "t0" _ (Message.mdict [("level", "info")]) 0 (by norm_num)

/-! ## C10 — energy storage state of charge
    (src/backend/src/physical/actuators/energy_storage.py) -/

/-- Executable binary maximum on the rationals (Python `max`). -/
def ratMax (a b : ℚ) : ℚ := if a < b then b else a

/-- One simulated storage unit as kept in
`EnergyStorageServer._storage_units`. -/
structure StorageUnit where
  bus : Nat
  capacityMwh : ℚ
  soc : ℚ
  maxPowerMw : ℚ
  currentMw : ℚ
deriving Repr, DecidableEq

/-- `EnergyStorageServer._execute_action` on one known unit: charge clamps
the state of charge at 1.0, discharge refuses at a state of charge at or
below 0.05 and otherwise clamps at 0.0, stop and emergency stop only zero
the power; any other action name leaves the unit unchanged and fails.  The
power parameter is the free-form `power_mw` entry of the parameter map
(absent means the unit maximum).  Returns the updated unit and the success
flag of the `ActuatorResponse`. -/
def executeStorageAction (u : StorageUnit) (action : String)
    (powerParam : Option ℚ) : StorageUnit × Bool :=
  if action = "charge" then
    let power := ratMin (powerParam.getD u.maxPowerMw) u.maxPowerMw
    let energy := ratAbs power / 60
    ({ u with currentMw := -(ratAbs power),
              soc := ratMin 1 (u.soc + energy / u.capacityMwh) }, true)
  else if action = "discharge" then
    let power := ratMin (powerParam.getD u.maxPowerMw) u.maxPowerMw
    if u.soc ≤ 1/20 then (u, false)
    else
      let energy := ratAbs power / 60
      ({ u with currentMw := ratAbs power,
                soc := ratMax 0 (u.soc - energy / u.capacityMwh) }, true)
  else if action = "stop" ∨ action = "emergency_stop" then
    ({ u with currentMw := 0 }, true)
  else (u, false)

/-- `ratAbs` is nonnegative. -/
theorem ratAbs_nonneg (q : ℚ) : 0 ≤ ratAbs q := by
  unfold ratAbs
  split <;> linarith

/-- `ratMin` of nonnegatives is nonnegative. -/
theorem ratMin_nonneg {a b : ℚ} (ha : 0 ≤ a) (hb : 0 ≤ b) :
    0 ≤ ratMin a b := by
  unfold ratMin
  split <;> assumption

/-- `ratMin` is bounded by its left argument. -/
theorem ratMin_le_left (a b : ℚ) : ratMin a b ≤ a := by
  unfold ratMin
  split_ifs with h
  · linarith
  · linarith

/-- `ratMax` dominates its left argument. -/
theorem le_ratMax_left (a b : ℚ) : a ≤ ratMax a b := by
  unfold ratMax
  split_ifs with h
  · linarith
  · linarith

/-- `ratMax` of two values below a bound stays below the bound. -/
theorem ratMax_le {a b c : ℚ} (ha : a ≤ c) (hb : b ≤ c) : ratMax a b ≤ c := by
  unfold ratMax
  split_ifs with h
  · exact hb
  · exact ha

/-- One control operation keeps the state of charge inside the unit
interval and never touches the capacity. -/
theorem executeStorageAction_step (u : StorageUnit) (action : String)
    (p : Option ℚ) (hc : 0 ≤ u.capacityMwh) (h0 : 0 ≤ u.soc)
    (h1 : u.soc ≤ 1) :
    0 ≤ (executeStorageAction u action p).1.soc ∧
    (executeStorageAction u action p).1.soc ≤ 1 ∧
    (executeStorageAction u action p).1.capacityMwh = u.capacityMwh := by
  simp only [executeStorageAction]
  have he : (0:ℚ) ≤
      ratAbs (ratMin (p.getD u.maxPowerMw) u.maxPowerMw) / 60 / u.capacityMwh :=
    div_nonneg (div_nonneg (ratAbs_nonneg _) (by norm_num)) hc
  split_ifs with hch hdis hlow hstop
  · refine ⟨?_, ?_, rfl⟩
    · exact ratMin_nonneg (by norm_num) (by linarith)
    · exact ratMin_le_left 1 _
  · exact ⟨h0, h1, rfl⟩
  · refine ⟨?_, ?_, rfl⟩
    · exact le_ratMax_left 0 _
    · exact ratMax_le (by norm_num) (by linarith)
  · exact ⟨h0, h1, rfl⟩
  · exact ⟨h0, h1, rfl⟩

/-- Sequences of control operations as routed into `_execute_action`: each
entry is the action name together with the optional `power_mw` parameter. -/
def runStorageOps (u : StorageUnit) (ops : List (String × Option ℚ)) :
    StorageUnit :=
  ops.foldl (fun v op => (executeStorageAction v op.1 op.2).1) u

/-- The state of charge and the capacity stay good along any operation
sequence. -/
theorem runStorageOps_inv (ops : List (String × Option ℚ)) :
    ∀ u : StorageUnit, 0 ≤ u.capacityMwh → 0 ≤ u.soc → u.soc ≤ 1 →
      0 ≤ (runStorageOps u ops).soc ∧ (runStorageOps u ops).soc ≤ 1 := by
  induction ops with
  | nil => exact fun u _ h0 h1 => ⟨h0, h1⟩
  | cons op t ih =>
      intro u hc h0 h1
      have hstep := executeStorageAction_step u op.1 op.2 hc h0 h1
      have hfold : runStorageOps u (op :: t)
          = runStorageOps (executeStorageAction u op.1 op.2).1 t := rfl
      rw [hfold]
      exact ih _ (by rw [hstep.2.2]; exact hc) hstep.1 hstep.2.1

/-- C10 — state-of-charge invariant: for a unit with nonnegative capacity
starting inside the unit interval, every sequence of control operations
(arbitrary action names, arbitrary power parameters) keeps the state of
charge within 0.0 and 1.0; moreover a discharge at a state of charge at or
below 0.05 is refused without changing the unit. -/
theorem storage_soc_bounded (u : StorageUnit) (ops : List (String × Option ℚ))
    (hc : 0 ≤ u.capacityMwh) (h0 : 0 ≤ u.soc) (h1 : u.soc ≤ 1) :
    (0 ≤ (runStorageOps u ops).soc ∧ (runStorageOps u ops).soc ≤ 1) ∧
    (∀ p, u.soc ≤ 1/20 → executeStorageAction u "discharge" p = (u, false)) := by
  refine ⟨runStorageOps_inv ops u hc h0 h1, ?_⟩
  intro p hlow
  have hlow2 : u.soc ≤ (20:ℚ)⁻¹ := by
    rw [inv_eq_one_div]
    exact hlow
  simp [executeStorageAction, hlow2]

/-- The storage unit `storage_0` as initialised by `EnergyStorageServer`. -/
def storage0 : StorageUnit :=
  { bus := 10, capacityMwh := 20, soc := 1/2, maxPowerMw := 5, currentMw := 0 }

/-- C10 witness: the invariant applied to unit `storage_0` over a concrete
sequence: a default charge, a 3 MW discharge, and an unknown action. -/
theorem storage_soc_bounded_witness :
    ((0 ≤ (runStorageOps storage0
        [("charge", none), ("discharge", some 3), ("flood", some 7)]).soc ∧
      (runStorageOps storage0
        [("charge", none), ("discharge", some 3), ("flood", some 7)]).soc ≤ 1) ∧
     (∀ p, storage0.soc ≤ 1/20 →
        executeStorageAction storage0 "discharge" p = (storage0, false))) := by
  exact storage_soc_bounded storage0
    [("charge", none), ("discharge", some 3), ("flood", some 7)]
    (by norm_num [storage0]) (by norm_num [storage0]) (by norm_num [storage0])

/-! ## C4 — zone protection engine deadband
    (src/src/coordination/zone_coordinator.py, `_evaluate_safety_rules`) -/

/-- One detected zone violation (`ZoneCoordinator._detect_violations` entry):
the type tag and the affected component; values and limits play no role in
the rule engine control flow. -/
structure ZoneViolation where
  vtype : String
  component : String
deriving Repr, DecidableEq

/-- Mutable state of one zone engine: the consecutive-violation counter and
its audit journal (event type and message per entry). -/
structure EngineState where
  consecutiveViolations : Nat
  audit : List (String × String)
deriving Repr, DecidableEq

/-- Outcome of `_evaluate_safety_rules`: either the escalation record
`{status: escalation_required, violations}` (no local actions are run), or
the deterministic-PLC payload with the actions taken and the violation
counts before and after the actions (the payload dict has no status key). -/
inductive RuleOutcome where
  | escalation (violationCount : Nat)
  | payload (actionsTaken : List String) (violationsBefore violationsAfter : Nat)
deriving Repr, DecidableEq

/-- `ZoneCoordinator._evaluate_safety_rules`.  The detection sweep feeding
the engine is passed in as `detected` (the violations found on entry) and
`postCount` (the count found by the re-detection after the corrective
actions, which depends on the optimizer effect on the grid); the MQTT
broadcasts are external effects and carry no state.  The counter increments
on any violations, resets on none, and escalation fires at a counter of
three or more BEFORE any rule executes. -/
def evaluateSafetyRules (detected : List ZoneViolation) (postCount : Nat)
    (st : EngineState) : RuleOutcome × EngineState :=
  let count := detected.length
  let consec := if count > 0 then st.consecutiveViolations + 1 else 0
  if consec ≥ 3 then
    (RuleOutcome.escalation count,
     { consecutiveViolations := consec,
       audit := st.audit ++ [("ESCALATION",
         "Escalating: Unable to resolve " ++ toString count
           ++ " violations after 3 cycles.")] })
  else
    let voltage := detected.any
      (fun v => v.vtype = "voltage_low" ∨ v.vtype = "voltage_high")
    let thermal := detected.any (fun v => v.vtype = "thermal")
    let actions := (if voltage then ["voltage_regulation"] else [])
      ++ (if thermal then ["thermal_protection"] else [])
    let auditAdd :=
      (if voltage
       then [("RELAY_TRIP", "IEC 60255-127 Voltage Relay Triggered.")] else [])
      ++ (if thermal
          then [("RELAY_TRIP", "IEC 60255-151 Overcurrent Relay Triggered.")]
          else [])
    (RuleOutcome.payload actions count postCount,
     { consecutiveViolations := consec, audit := st.audit ++ auditAdd })

/-- Whether an outcome is the escalation record. -/
def isEscalation : RuleOutcome → Bool
  | RuleOutcome.escalation _ => true
  | _ => false

/-- Counter evolution of the rule engine: increment on any violations,
reset on none. -/
theorem eval_consec (v : List ZoneViolation) (p : Nat) (st : EngineState) :
    (evaluateSafetyRules v p st).2.consecutiveViolations
      = if 0 < v.length then st.consecutiveViolations + 1 else 0 := by
  by_cases h1 : 0 < v.length
  · simp only [evaluateSafetyRules]
    rw [if_pos h1]
    split_ifs with h2 <;> rfl
  · simp only [evaluateSafetyRules]
    rw [if_neg h1]
    split_ifs with h2 <;> rfl

/-- Below the deadband the engine returns a payload, never the escalation
record. -/
theorem eval_not_escalation (v : List ZoneViolation) (p : Nat)
    (st : EngineState)
    (h : (if 0 < v.length then st.consecutiveViolations + 1 else 0) < 3) :
    isEscalation (evaluateSafetyRules v p st).1 = false := by
  by_cases h1 : 0 < v.length
  · rw [if_pos h1] at h
    simp only [evaluateSafetyRules]
    rw [if_pos h1, if_neg (by omega : ¬ st.consecutiveViolations + 1 ≥ 3)]
    rfl
  · rw [if_neg h1] at h
    simp only [evaluateSafetyRules]
    rw [if_neg h1, if_neg (by omega : ¬ (0:Nat) ≥ 3)]
    rfl

/-- At the deadband the engine returns the escalation record and appends a
single ESCALATION audit entry without running local actions. -/
theorem eval_escalation (v : List ZoneViolation) (p : Nat) (st : EngineState)
    (h : (if 0 < v.length then st.consecutiveViolations + 1 else 0) ≥ 3) :
    (evaluateSafetyRules v p st).1 = RuleOutcome.escalation v.length ∧
    (evaluateSafetyRules v p st).2.audit = st.audit ++ [("ESCALATION",
      "Escalating: Unable to resolve " ++ toString v.length
        ++ " violations after 3 cycles.")] := by
  by_cases h1 : 0 < v.length
  · rw [if_pos h1] at h
    simp only [evaluateSafetyRules]
    rw [if_pos h1, if_pos h]
    exact ⟨rfl, rfl⟩
  · rw [if_neg h1] at h
    omega

/-- C4 — escalation deadband: from a reset counter, with violations present
on each invocation, the first and the second invocation return deterministic
corrective payloads (never the escalation record), the third returns exactly
the escalation record with the violation count, appending a single
ESCALATION audit entry and running no local actions; and any invocation
with zero violations resets the counter. -/
theorem escalation_deadband (v1 v2 v3 : List ZoneViolation)
    (p1 p2 p3 : Nat) (st : EngineState)
    (h0 : st.consecutiveViolations = 0)
    (h1 : v1 ≠ []) (h2 : v2 ≠ []) (h3 : v3 ≠ []) :
    isEscalation (evaluateSafetyRules v1 p1 st).1 = false ∧
    isEscalation
      (evaluateSafetyRules v2 p2 (evaluateSafetyRules v1 p1 st).2).1
        = false ∧
    (evaluateSafetyRules v3 p3
        (evaluateSafetyRules v2 p2 (evaluateSafetyRules v1 p1 st).2).2).1
      = RuleOutcome.escalation v3.length ∧
    (evaluateSafetyRules v3 p3
        (evaluateSafetyRules v2 p2 (evaluateSafetyRules v1 p1 st).2).2).2.audit
      = (evaluateSafetyRules v2 p2 (evaluateSafetyRules v1 p1 st).2).2.audit
        ++ [("ESCALATION",
          "Escalating: Unable to resolve " ++ toString v3.length
            ++ " violations after 3 cycles.")] ∧
    (∀ (p : Nat) (s : EngineState),
      (evaluateSafetyRules [] p s).2.consecutiveViolations = 0) := by
  have l1 : 0 < v1.length := List.length_pos.mpr h1
  have l2 : 0 < v2.length := List.length_pos.mpr h2
  have l3 : 0 < v3.length := List.length_pos.mpr h3
  have s1 : (evaluateSafetyRules v1 p1 st).2.consecutiveViolations = 1 := by
    rw [eval_consec, if_pos l1, h0]
  have r1 := eval_not_escalation v1 p1 st (by rw [if_pos l1, h0]; omega)
  have s2 : (evaluateSafetyRules v2 p2
      (evaluateSafetyRules v1 p1 st).2).2.consecutiveViolations = 2 := by
    rw [eval_consec, if_pos l2, s1]
  have r2 := eval_not_escalation v2 p2
    (evaluateSafetyRules v1 p1 st).2 (by rw [if_pos l2, s1]; omega)
  have hesc := eval_escalation v3 p3
    (evaluateSafetyRules v2 p2 (evaluateSafetyRules v1 p1 st).2).2
    (by rw [if_pos l3, s2])
  refine ⟨r1, r2, hesc.1, hesc.2, ?_⟩
  intro p s
  rw [eval_consec]
  simp

/-- The persistent low-voltage violation at bus 5 of the literal deadband
scenario. -/
def vC4 : List ZoneViolation := [{ vtype := "voltage_low", component := "bus_5" }]

/-- A freshly constructed engine (counter zero, empty audit). -/
def stC4 : EngineState := { consecutiveViolations := 0, audit := [] }

/-- C4 witness: the deadband applied to the literal scenario of the
specification: the same low-voltage violation at bus 5 on three consecutive
invocations of a fresh engine. -/
theorem escalation_deadband_witness :
    isEscalation (evaluateSafetyRules vC4 0 stC4).1 = false ∧
    isEscalation
      (evaluateSafetyRules vC4 0 (evaluateSafetyRules vC4 0 stC4).2).1
        = false ∧
    (evaluateSafetyRules vC4 0
        (evaluateSafetyRules vC4 0 (evaluateSafetyRules vC4 0 stC4).2).2).1
      = RuleOutcome.escalation vC4.length ∧
    (evaluateSafetyRules vC4 0
        (evaluateSafetyRules vC4 0 (evaluateSafetyRules vC4 0 stC4).2).2).2.audit
      = (evaluateSafetyRules vC4 0 (evaluateSafetyRules vC4 0 stC4).2).2.audit
        ++ [("ESCALATION",
          "Escalating: Unable to resolve " ++ toString vC4.length
            ++ " violations after 3 cycles.")] ∧
    (∀ (p : Nat) (s : EngineState),
      (evaluateSafetyRules [] p s).2.consecutiveViolations = 0) :=
  escalation_deadband vC4 vC4 vC4 0 0 0 stC4 rfl
    (List.cons_ne_nil _ _) (List.cons_ne_nil _ _) (List.cons_ne_nil _ _)

/-! ## C8 — safety guardian fail-closed default
    (src/src/strategic/guardian.py, `validate_command`) -/

/-- A guardian verdict: the four fields of the JSON answer contract. -/
structure Verdict where
  safe : Bool
  riskLevel : String
  reasoning : String
  conditions : List String
deriving Repr, DecidableEq

/-- The fail-closed verdict built in the except-branch of
`validate_command`; the reasoning interpolates the exception text after the
fixed prefix. -/
def guardianDefault (errText : String) : Verdict :=
  { safe := false, riskLevel := "HIGH",
    reasoning := "Guardian could not evaluate: " ++ errText,
    conditions := ["Manual review required"] }

/-- Python `str.strip` (whitespace both ends), on the character data. -/
def pyStrip (s : String) : String :=
  String.mk
    (((s.data.dropWhile Char.isWhitespace).reverse.dropWhile
        Char.isWhitespace).reverse)

/-- Python `str.lower`, on the character data. -/
def pyLower (s : String) : String := String.mk (s.data.map Char.toLower)

/-- Python `str.startswith`, on the character data. -/
def pyStartsWith (s pre : String) : Bool := pre.data.isPrefixOf s.data

/-- Python `sub in s`. -/
def pyContains (s sub : String) : Bool := (s.splitOn sub).length > 1

/-- Python `s.split(sep, 1)[1]`: everything after the first separator. -/
def pyAfterFirst (s sep : String) : String :=
  String.intercalate sep ((s.splitOn sep).drop 1)

/-- Python `s.rsplit(sep, 1)[0]`: everything before the last separator. -/
def pyBeforeLast (s sep : String) : String :=
  String.intercalate sep ((s.splitOn sep).dropLast)

/-- Markdown-fence stripping of `validate_command`: when the response opens
with a code fence, drop its first line, drop everything from the closing
fence on, and strip whitespace again. -/
def stripFences (c : String) : String :=
  if pyStartsWith c "```" then
    let c1 := if pyContains c "\n" then pyAfterFirst c "\n" else c
    let c2 := if pyContains c1 "```" then pyBeforeLast c1 "```" else c1
    pyStrip c2
  else c

/-- Response-handling core of `SafetyGuardian.validate_command` (the
try-except block): the oracle call is abstracted as an `Except` value
(error = the LLM client raised, with the exception text), the JSON decoder
as an `Except`-valued parser.  Strip and de-fence the raw answer, accept the
bare safe and unsafe shorthands, otherwise decode JSON; any oracle
exception or decode failure yields the fail-closed default verdict. -/
def guardianEvaluate (jsonParse : String → Except String Verdict)
    (oracle : Except String String) : Verdict :=
  match oracle with
  | Except.error e => guardianDefault e
  | Except.ok raw =>
      let clean := stripFences (pyStrip raw)
      let lower := pyLower clean
      if lower = "safe" ∨ pyStartsWith lower "safe\n" then
        { safe := true, riskLevel := "LOW",
          reasoning := "Action evaluated as safe.", conditions := [] }
      else if pyStartsWith lower "unsafe" then
        { safe := false, riskLevel := "HIGH",
          reasoning := "Action blocked by safeguard model: " ++ clean,
          conditions := [] }
      else
        match jsonParse clean with
        | Except.ok v => v
        | Except.error e => guardianDefault e

/-- A JSON decoder outcome for a response that is not valid JSON, with the
message the Python decoder produces in that case. -/
def failParse : String → Except String Verdict :=
  fun _ => Except.error "Expecting value: line 1 column 1 (char 0)"

/-- C8 counterexample: an unparseable oracle response yields a verdict whose
reasoning is the prefix PLUS the exception text, not the bare string
"Guardian could not evaluate" the claim states; the other three fields are
as claimed. -/
theorem guardian_reasoning_not_exact :
    (guardianEvaluate failParse (Except.ok "hello")).reasoning
        ≠ "Guardian could not evaluate" ∧
    (guardianEvaluate failParse (Except.ok "hello")).safe = false := by
  constructor <;> decide

/-- C8 amended: on any oracle exception, and on any response that is neither
the safe/unsafe shorthand nor decodable JSON, `validate_command` returns the
fail-closed verdict: safe false, risk HIGH, conditions exactly Manual review
required, and a reasoning equal to "Guardian could not evaluate: " followed
by the exception text. -/
theorem guardian_fail_closed (jsonParse : String → Except String Verdict)
    (oracle : Except String String) (msg : String)
    (h : oracle = Except.error msg ∨
      (∃ raw, oracle = Except.ok raw ∧
        ¬ (pyLower (stripFences (pyStrip raw)) = "safe" ∨
           pyStartsWith (pyLower (stripFences (pyStrip raw))) "safe\n") ∧
        pyStartsWith (pyLower (stripFences (pyStrip raw))) "unsafe" = false ∧
        jsonParse (stripFences (pyStrip raw)) = Except.error msg)) :
    guardianEvaluate jsonParse oracle = guardianDefault msg ∧
    (guardianEvaluate jsonParse oracle).safe = false ∧
    (guardianEvaluate jsonParse oracle).riskLevel = "HIGH" ∧
    (guardianEvaluate jsonParse oracle).conditions = ["Manual review required"] ∧
    (guardianEvaluate jsonParse oracle).reasoning
      = "Guardian could not evaluate: " ++ msg := by
  have heval : guardianEvaluate jsonParse oracle = guardianDefault msg := by
    rcases h with rfl | ⟨raw, rfl, hshort, hblock, hjson⟩
    · rfl
    · simp only [guardianEvaluate]
      rw [if_neg hshort, if_neg (by simp [hblock]), hjson]
  exact ⟨heval, by rw [heval]; rfl, by rw [heval]; rfl, by rw [heval]; rfl,
    by rw [heval]; rfl⟩

/-- C8 witness: the fail-closed path applied to the concrete unparseable
response, discharging the path hypotheses by evaluation. -/
theorem guardian_fail_closed_witness :
    guardianEvaluate failParse (Except.ok "hello")
        = guardianDefault "Expecting value: line 1 column 1 (char 0)" ∧
    (guardianEvaluate failParse (Except.ok "hello")).safe = false ∧
    (guardianEvaluate failParse (Except.ok "hello")).riskLevel = "HIGH" ∧
    (guardianEvaluate failParse (Except.ok "hello")).conditions
        = ["Manual review required"] ∧
    (guardianEvaluate failParse (Except.ok "hello")).reasoning
      = "Guardian could not evaluate: "
        ++ "Expecting value: line 1 column 1 (char 0)" :=
  guardian_fail_closed failParse (Except.ok "hello")
    "Expecting value: line 1 column 1 (char 0)"
    (Or.inr ⟨"hello", rfl, by decide, by decide, rfl⟩)

/-! ## C3 — strategic agent tool execution path
    (src/src/strategic/agent.py, `_execute_tool` and `_call_server_tool`) -/

/-- The three live-server families the agent can route to, discriminated in
`_call_server_tool` by attribute probing (`zone_id` for coordinators,
`sensor_type` for sensors, `device_type` for actuators). -/
inductive ServerKind where
  | coordinator
  | sensor
  | actuator
deriving Repr, DecidableEq

/-- A live in-process server object held in `_server_objects`. -/
structure ServerObj where
  kind : ServerKind
  name : String
deriving Repr, DecidableEq

/-- Observable events along the agent tool-execution path.  The guardian
verdict constructor exists so that guardian gating would be expressible in a
trace; the embedded code never emits it. -/
inductive AgentEvent where
  | logEvent (level : String) (message : String)
  | guardianVerdict (toolName : String)
  | serverInvoke (serverId : String) (originalTool : String)
deriving Repr, DecidableEq

/-- Tool names handled per family in `_call_server_tool`. -/
def coordinatorToolNames : List String :=
  ["get_zone_status", "optimize_zone_topology", "handle_violation",
   "load_balancing", "voltage_regulation", "emergency_islanding",
   "detect_violations", "analyze_and_act"]

/-- Sensor tool names handled in `_call_server_tool`. -/
def sensorToolNames : List String :=
  ["read_sensor", "read_sensors_batch", "list_sensors", "set_threshold",
   "get_metadata"]

/-- Actuator tool names handled in `_call_server_tool`; `control` runs
`_handle_control`, which performs the real mutation. -/
def actuatorToolNames : List String :=
  ["control", "validate_action", "get_status", "list_devices",
   "emergency_shutdown"]

/-- `StrategicAgent._call_server_tool`: dispatch on the server family and the
original tool name; an unmatched name yields the structured unknown-tool
error (`none`).  No guardian is consulted anywhere on this path. -/
def callServerTool (server : ServerObj) (toolName : String) : Option String :=
  match server.kind with
  | ServerKind.coordinator =>
      if coordinatorToolNames.contains toolName then some toolName else none
  | ServerKind.sensor =>
      if sensorToolNames.contains toolName then some toolName else none
  | ServerKind.actuator =>
      if actuatorToolNames.contains toolName then some toolName else none

/-- `StrategicAgent._execute_tool`: publish the tool_call log event, resolve
the server id and the original tool name, return early on unknown tool or
missing live server, otherwise invoke the handler on the server object
directly.  The returned trace lists the events in order. -/
def executeTool (toolServerMap toolNameMap : List (String × String))
    (serverObjects : List (String × ServerObj)) (toolName : String) :
    List AgentEvent :=
  let log := AgentEvent.logEvent "tool_call" ("Calling component: " ++ toolName)
  match toolServerMap.lookup toolName with
  | none => [log]
  | some sid =>
      match serverObjects.lookup sid with
      | none => [log]
      | some _ =>
          let original := (toolNameMap.lookup toolName).getD toolName
          [log, AgentEvent.serverInvoke sid original]

/-- Whether a trace contains a guardian verdict. -/
def hasGuardianEvent (tr : List AgentEvent) : Bool :=
  tr.any (fun e => match e with
    | AgentEvent.guardianVerdict _ => true
    | _ => false)

/-- The external tool name under which the generator actuator control is
catalogued after discovery. -/
def genControlTool : String := "generator_actuator_system_control"

/-- The live generator actuator object of the C3 scenario. -/
def genActuator : ServerObj :=
  { kind := ServerKind.actuator, name := "Generator Actuator (system)" }

/-- C3 — the tool-execution trace of an actuation: the agent publishes the
log event and invokes the actuator control handler directly; no guardian
verdict occurs anywhere in the trace (the execution path of `_execute_tool`
and `_call_server_tool` contains no guardian call), although the control
handler is the one performing the real mutation. -/
theorem agent_actuation_not_gated :
    executeTool [(genControlTool, "actuator_generator_system_ab12")]
        [(genControlTool, "control")]
        [("actuator_generator_system_ab12", genActuator)] genControlTool
      = [AgentEvent.logEvent "tool_call"
           ("Calling component: " ++ genControlTool),
         AgentEvent.serverInvoke "actuator_generator_system_ab12" "control"] ∧
    hasGuardianEvent
      (executeTool [(genControlTool, "actuator_generator_system_ab12")]
        [(genControlTool, "control")]
        [("actuator_generator_system_ab12", genActuator)] genControlTool)
      = false ∧
    callServerTool genActuator "control" = some "control" := by
  refine ⟨by decide, by decide, by decide⟩

/-! ## C6 — monitoring loop violation attribution and dispatch
    (src/src/strategic/monitor.py) -/

/-- One `ViolationEvent` of the monitoring loop (the fields the dispatch
logic uses). -/
structure VEvent where
  vtype : String
  zone : String
  component : String
  value : ℚ
deriving Repr, DecidableEq

/-- `MonitoringLoop._bus_to_zone`. -/
def busToZone (b : Nat) : String :=
  if b < 10 then "zone1" else if b < 20 then "zone2" else "zone3"

/-- `MonitoringLoop._detect_all_violations`: voltage events carry the zone of
their bus; thermal and frequency events are hard-coded to the zone string
"system" regardless of the affected component. -/
def detectAllViolations (s : ObsState) : List VEvent :=
  (s.busVoltages.filterMap (fun p =>
    if p.2 < (95/100 : ℚ) then
      some { vtype := "voltage", zone := busToZone p.1,
             component := "bus_" ++ toString p.1, value := p.2 }
    else if p.2 > (105/100 : ℚ) then
      some { vtype := "voltage", zone := busToZone p.1,
             component := "bus_" ++ toString p.1, value := p.2 }
    else none))
  ++ (s.lineLoadings.filterMap (fun p =>
    if p.2 > (100 : ℚ) then
      some { vtype := "thermal", zone := "system",
             component := "line_" ++ toString p.1, value := p.2 }
    else none))
  ++ (if ratAbs (s.frequency - 60) > 1/2 then
      [{ vtype := "frequency", zone := "system", component := "system",
         value := s.frequency }]
    else [])

/-- `MonitoringLoop._group_by_zone`: group in first-occurrence order by the
zone attribute. -/
def groupByZone (vs : List VEvent) : List (String × List VEvent) :=
  vs.foldl (fun gs v =>
    if gs.any (fun g => g.1 = v.zone) then
      gs.map (fun g => if g.1 = v.zone then (g.1, g.2 ++ [v]) else g)
    else gs ++ [(v.zone, [v])]) []

/-- Zone-first dispatch decision of `MonitoringLoop._check_cycle`: a zone
group with a registered coordinator is dispatched to that coordinator; a
group whose zone has no coordinator is escalated immediately to the
strategic agent. -/
def dispatchPlan (coordinatorZones : List String)
    (groups : List (String × List VEvent)) :
    List (String × List VEvent) × List VEvent :=
  (groups.filter (fun g => coordinatorZones.contains g.1),
   (groups.filter (fun g => ¬ coordinatorZones.contains g.1)).flatMap
     (fun g => g.2))

/-- A grid whose only anomaly is a 110 percent overload on line 0, a line
whose two endpoints (buses 0 and 1) both lie in zone1 on the IEEE 30-bus
case; all voltages and the frequency are nominal. -/
def gC6 : ObsState :=
  { busVoltages := [(0, 1), (1, 1)], lineLoadings := [(0, 110)],
    frequency := 60 }

/-- C6 — a thermal violation on a line internal to zone1 is attributed to
the zone string "system" (not zone1), so the zone-first dispatch finds no
matching coordinator and escalates it directly to the strategic agent:
nothing is dispatched to the zone1 coordinator. -/
theorem thermal_violation_escalates_not_dispatched :
    detectAllViolations gC6
      = [{ vtype := "thermal", zone := "system", component := "line_0",
           value := 110 }] ∧
    dispatchPlan ["zone1", "zone2", "zone3"]
        (groupByZone (detectAllViolations gC6))
      = ([], [{ vtype := "thermal", zone := "system", component := "line_0",
                value := 110 }]) := by
  have hdet : detectAllViolations gC6
      = [{ vtype := "thermal", zone := "system", component := "line_0",
           value := 110 }] := by
    norm_num [detectAllViolations, gC6, ratAbs, List.filterMap_cons]
    decide
  refine ⟨hdet, ?_⟩
  rw [hdet]
  decide
